import Mathlib

/-!
Verification of the CAN acceptance-filter bank allocation and matching model
exercised by `examples/can-loopback.rs`.  The filter allocator itself lives in
the HAL crate, outside the example file; its data model and operations are
modelled here from the design specification (§3–§4 of the spec), and the
reference scenario follows the example source.
-/

namespace CanFilters

/-- Modelled from the spec: identifier width of a filter, 11-bit standard or
29-bit extended (the HAL filter types are not in the example source). -/
inductive FilterWidth
  | Standard11
  | Extended29
deriving DecidableEq, Repr

/-- Number of identifier bits for each filter width. -/
def FilterWidth.bits : FilterWidth → Nat
  | .Standard11 => 11
  | .Extended29 => 29

/-- Modelled from the spec: the matching mode of a filter bank or slot,
either identifier-plus-mask or exact-identifier list. -/
inductive FilterMode
  | Mask
  | List
deriving DecidableEq, Repr

/-- Modelled from the spec (§3, Filter): an identifier bit-pattern of the given
width plus an optional mask; an absent mask means exact-match (list) mode. -/
structure Filter where
  width : FilterWidth
  identifier : Nat
  mask : Option Nat
deriving DecidableEq, Repr

/-- The mode a filter's shape selects: a present mask means Mask mode,
an absent mask means List mode. -/
def Filter.mode (f : Filter) : FilterMode :=
  match f.mask with
  | some _ => .Mask
  | none => .List

/-- Modelled from the spec / `Filter::new_standard` in the example: an 11-bit
exact-match filter (identifier truncated to 11 bits). -/
def Filter.new_standard (id : Nat) : Filter :=
  ⟨.Standard11, id % 2 ^ 11, none⟩

/-- Modelled from the spec: a 29-bit exact-match filter
(identifier truncated to 29 bits). -/
def Filter.new_extended (id : Nat) : Filter :=
  ⟨.Extended29, id % 2 ^ 29, none⟩

/-- Modelled from the spec / `with_mask` in the example: attach a mask to a
filter, turning it into a Mask-mode filter; the mask is a bit-pattern of the
filter's width. -/
def Filter.with_mask (f : Filter) (m : Nat) : Filter :=
  { f with mask := some (m % 2 ^ f.width.bits) }

/-- Modelled from the spec (§3): a Mask-mode filter accepts `id` when
`(id &&& mask) = (identifier &&& mask)`; a List-mode filter accepts only an
exact identifier match. -/
def Filter.matches (f : Filter) (id : Nat) : Bool :=
  match f.mask with
  | some m => (id &&& m) == (f.identifier &&& m)
  | none => id == f.identifier

/-- Modelled from the spec (§3, FilterGroup): a group of filter slots sharing
one (width, mode) configuration; `slots` are the populated slots in strict
insertion order. -/
structure FilterGroup where
  width : FilterWidth
  mode : FilterMode
  capacity : Nat
  slots : List Filter
deriving DecidableEq, Repr

/-- Number of populated slots of a group. -/
def FilterGroup.used (g : FilterGroup) : Nat :=
  g.slots.length

/-- Modelled from the spec (§7): the three error kinds of the filter core. -/
inductive FilterError
  | InsufficientCapacity
  | GroupFull
  | ConfigMismatch
deriving DecidableEq, Repr

/-- Modelled from the spec (§4.2, add): append a filter into the next empty
slot.  Fails with `GroupFull` when `used = capacity`; fails with
`ConfigMismatch` when the filter's width/mode shape does not match the group's
configuration.  The first component is the (possibly unchanged) group, so a
failed call makes no change. -/
def FilterGroup.add (g : FilterGroup) (f : Filter) :
    FilterGroup × Except FilterError Unit :=
  if g.used = g.capacity then
    (g, .error .GroupFull)
  else if f.width = g.width ∧ f.mode = g.mode then
    ({ g with slots := g.slots ++ [f] }, .ok ())
  else
    (g, .error .ConfigMismatch)

/-- Modelled from the spec (§4.2, matches): true iff some populated slot of
this group accepts the identifier. -/
def FilterGroup.matches (g : FilterGroup) (id : Nat) : Bool :=
  g.slots.any (fun f => f.matches id)

/-- Modelled from the spec (§3, FilterBankPool): the fixed pool of hardware
filter banks with the count of banks not yet assigned. -/
structure FilterBankPool where
  total_banks : Nat
  available : Nat
deriving DecidableEq, Repr

/-- One entry of a partition request: a (width, mode) configuration and the
number of banks requested for it. -/
structure GroupRequest where
  width : FilterWidth
  mode : FilterMode
  bank_count : Nat
deriving DecidableEq, Repr

/-- Modelled from the spec (§4.1 packing table): filter slots one bank offers
in each configuration — an 11-bit mask-mode bank holds 2 slots, a 29-bit
list-mode bank holds 2 slots, an 11-bit list-mode bank holds 4 slots; a 29-bit
mask-mode bank holds 1 slot (hardware packing, not listed in the table). -/
def slots_per_bank : FilterWidth → FilterMode → Nat
  | .Standard11, .Mask => 2
  | .Standard11, .List => 4
  | .Extended29, .Mask => 1
  | .Extended29, .List => 2

/-- Capacity a request yields: `bank_count * slots_per_bank width mode`. -/
def GroupRequest.capacity (r : GroupRequest) : Nat :=
  r.bank_count * slots_per_bank r.width r.mode

/-- Modelled from the spec (§4.1, split): partition the pool into one empty
group per request.  Fails with `InsufficientCapacity` when the requested banks
exceed `available`, leaving the pool unmodified; on success decrements
`available` by the total banks consumed. -/
def FilterBankPool.split (pool : FilterBankPool) (reqs : List GroupRequest) :
    FilterBankPool × Except FilterError (List FilterGroup) :=
  let requested := (reqs.map GroupRequest.bank_count).sum
  if pool.available < requested then
    (pool, .error .InsufficientCapacity)
  else
    ({ pool with available := pool.available - requested },
     .ok (reqs.map fun r => ⟨r.width, r.mode, r.capacity, []⟩))

/-- Modelled from the spec / `num_available` in the example: filter slots still
empty across all groups. -/
def num_available (gs : List FilterGroup) : Nat :=
  (gs.map fun g => g.capacity - g.used).sum

/-- Modelled from the spec (§4.3): the top-level accept decision over the full
set of groups — true iff any group's `matches` is true. -/
def accepts (gs : List FilterGroup) (id : Nat) : Bool :=
  gs.any (fun g => g.matches id)

/-- Modelled from the spec (§4.3/§6): whether a transmitted frame with the
given identifier is observable on the receive path — the external transport
delivers a frame exactly when some filter accepts it. -/
def reaches_receive (gs : List FilterGroup) (id : Nat) : Bool :=
  accepts gs id

/-- The partition request of the reference scenario in the example:
1 bank 11-bit mask, 1 bank 29-bit list, 2 banks 11-bit list. -/
def referenceRequests : List GroupRequest :=
  [⟨.Standard11, .Mask, 1⟩, ⟨.Extended29, .List, 1⟩, ⟨.Standard11, .List, 2⟩]

/-- The groups of the reference scenario after all eight `add` calls of the
example: mask filters `{id=0, mask=~1}` and `{id=0, mask=~2}` into group 1,
list filters `{id=4}`, `{id=5}` into group 2, and list filters `{id=8}`,
`{id=9}`, `{id=10}`, `{id=11}` into group 3.  The pool is sized to the
hardware constant of 14 banks (spec §3). -/
def referenceGroups : List FilterGroup :=
  match (FilterBankPool.split ⟨14, 14⟩ referenceRequests).2 with
  | .ok [g1, g2, g3] =>
    let g1 := (g1.add ((Filter.new_standard 0).with_mask (2 ^ 32 - 2))).1
    let g1 := (g1.add ((Filter.new_standard 0).with_mask (2 ^ 32 - 3))).1
    let g2 := (g2.add (Filter.new_extended 4)).1
    let g2 := (g2.add (Filter.new_extended 5)).1
    let g3 := (g3.add (Filter.new_standard 8)).1
    let g3 := (g3.add (Filter.new_standard 9)).1
    let g3 := (g3.add (Filter.new_standard 10)).1
    let g3 := (g3.add (Filter.new_standard 11)).1
    [g1, g2, g3]
  | _ => []

/-- The partition request the spec's §8 scenario should have made to match the
example source: 1 bank 11-bit mask, 1 bank 29-bit list, 1 bank 11-bit list. -/
def amendedRequests : List GroupRequest :=
  [⟨.Standard11, .Mask, 1⟩, ⟨.Extended29, .List, 1⟩, ⟨.Standard11, .List, 1⟩]

/-- C1: in the reference scenario — a pool split into the groups
[1 bank 11-bit-mask, 1 bank 29-bit-list, 2 banks 11-bit-list], with mask
filters `{id=0, mask=~1}` and `{id=0, mask=~2}` added to group 1, list filters
`{id=4}`, `{id=5}` added to group 2, and list filters `{id=8}`, `{id=9}`,
`{id=10}`, `{id=11}` added to group 3 — the top-level `accepts x` returns true
for every x in {0, 1, 2, 4, 5, 8, 9, 10, 11} and false for every x in
{3, 6, 7, 12}. -/
theorem reference_scenario_accepts :
    ([0, 1, 2, 4, 5, 8, 9, 10, 11] : List Nat).all
      (fun x => accepts referenceGroups x) = true ∧
    ([3, 6, 7, 12] : List Nat).any
      (fun x => accepts referenceGroups x) = false := by
  decide

/-- C2 counterexample: with a pool of 3 banks, the partition request of the
claim — [1 bank 11-bit-mask, 1 bank 29-bit-list, 2 banks 11-bit-list], 4 banks
in total — does not succeed: it fails with `InsufficientCapacity`, so the
claimed scenario (split succeeds and yields capacities [2, 2, 4]) is false. -/
theorem three_bank_pool_four_bank_request_fails :
    (FilterBankPool.split ⟨3, 3⟩ referenceRequests).2
      = .error .InsufficientCapacity := by
  rfl

/-- C2 amended: a pool with 3 banks, split as [1 bank 11-bit-mask, 1 bank
29-bit-list, 1 bank 11-bit-list], succeeds and yields groups of capacity
[2, 2, 4], for 8 total filter slots available after the split. -/
theorem three_bank_partition_capacities :
    (FilterBankPool.split ⟨3, 3⟩ amendedRequests).2
      = .ok [⟨.Standard11, .Mask, 2, []⟩, ⟨.Extended29, .List, 2, []⟩,
             ⟨.Standard11, .List, 4, []⟩] ∧
    num_available [⟨.Standard11, .Mask, 2, []⟩, ⟨.Extended29, .List, 2, []⟩,
                   ⟨.Standard11, .List, 4, []⟩] = 8 := by
  exact ⟨rfl, rfl⟩

/-- C4: whenever the total requested bank count exceeds the pool's available
banks, `split` fails with `InsufficientCapacity` and leaves the pool
unmodified. -/
theorem split_insufficient_capacity (pool : FilterBankPool)
    (reqs : List GroupRequest)
    (h : pool.available < (reqs.map GroupRequest.bank_count).sum) :
    (pool.split reqs).2 = .error .InsufficientCapacity ∧
    (pool.split reqs).1 = pool := by
  simp [FilterBankPool.split, h]

/-- C4 witness: a pool of 3 banks cannot satisfy the 4-bank reference
request. -/
theorem split_insufficient_capacity_witness :
    (FilterBankPool.split ⟨3, 3⟩ referenceRequests).2
      = .error .InsufficientCapacity ∧
    (FilterBankPool.split ⟨3, 3⟩ referenceRequests).1 = ⟨3, 3⟩ :=
  split_insufficient_capacity ⟨3, 3⟩ referenceRequests (by decide)

/-- C5: on a group whose used count equals its capacity, adding any filter
fails with `GroupFull` and leaves the group (its populated slots included)
unchanged. -/
theorem add_group_full (g : FilterGroup) (f : Filter)
    (h : g.used = g.capacity) :
    (g.add f).2 = .error .GroupFull ∧ (g.add f).1 = g := by
  simp [FilterGroup.add, h]

/-- C5 witness: a full single-slot list group rejects a further filter with
`GroupFull` and is unchanged. -/
theorem add_group_full_witness :
    ((FilterGroup.add ⟨.Standard11, .List, 1, [⟨.Standard11, 5, none⟩]⟩
        (Filter.new_standard 6)).2 = .error .GroupFull) ∧
    ((FilterGroup.add ⟨.Standard11, .List, 1, [⟨.Standard11, 5, none⟩]⟩
        (Filter.new_standard 6)).1
      = ⟨.Standard11, .List, 1, [⟨.Standard11, 5, none⟩]⟩) :=
  add_group_full ⟨.Standard11, .List, 1, [⟨.Standard11, 5, none⟩]⟩
    (Filter.new_standard 6) (by decide)

/-- C3: for every partition request sequence whose total requested bank count
is at most the pool's available banks, `split` succeeds and returns one group
per request with `capacity = bank_count * slots_per_bank width mode`; the sum
of the resulting group capacities equals the sum of these per-request
products; and the packing table gives 2 slots per 11-bit mask-mode bank,
2 per 29-bit list-mode bank and 4 per 11-bit list-mode bank. -/
theorem split_success_capacities (pool : FilterBankPool)
    (reqs : List GroupRequest)
    (h : (reqs.map GroupRequest.bank_count).sum ≤ pool.available) :
    ∃ gs : List FilterGroup,
      (pool.split reqs).2 = .ok gs ∧
      gs.map FilterGroup.capacity
        = reqs.map (fun r => r.bank_count * slots_per_bank r.width r.mode) ∧
      (gs.map FilterGroup.capacity).sum
        = (reqs.map (fun r => r.bank_count * slots_per_bank r.width r.mode)).sum ∧
      slots_per_bank .Standard11 .Mask = 2 ∧
      slots_per_bank .Extended29 .List = 2 ∧
      slots_per_bank .Standard11 .List = 4 := by
  have hmap :
      (reqs.map fun r =>
        (⟨r.width, r.mode, r.capacity, []⟩ : FilterGroup)).map FilterGroup.capacity
      = reqs.map (fun r => r.bank_count * slots_per_bank r.width r.mode) := by
    simp [List.map_map, GroupRequest.capacity]
  refine ⟨reqs.map fun r => ⟨r.width, r.mode, r.capacity, []⟩, ?_, hmap,
    by rw [hmap], rfl, rfl, rfl⟩
  simp [FilterBankPool.split, Nat.not_lt.mpr h]

/-- C3 witness: splitting a 3-bank pool by the amended reference request
succeeds with capacities [2, 2, 4]. -/
theorem split_success_capacities_witness :
    ∃ gs : List FilterGroup,
      (FilterBankPool.split ⟨3, 3⟩ amendedRequests).2 = .ok gs ∧
      gs.map FilterGroup.capacity
        = amendedRequests.map
            (fun r => r.bank_count * slots_per_bank r.width r.mode) ∧
      (gs.map FilterGroup.capacity).sum
        = (amendedRequests.map
            (fun r => r.bank_count * slots_per_bank r.width r.mode)).sum ∧
      slots_per_bank .Standard11 .Mask = 2 ∧
      slots_per_bank .Extended29 .List = 2 ∧
      slots_per_bank .Standard11 .List = 4 :=
  split_success_capacities ⟨3, 3⟩ amendedRequests (by decide)

/-- C6 counterexample: on a group that is already full, adding a filter whose
shape does not match the group's configuration fails with `GroupFull`, not
with `ConfigMismatch` — so the claim as stated (every shape-mismatched add
fails with `ConfigMismatch`) is false. -/
theorem full_group_mismatch_gives_group_full :
    ((⟨.Extended29, 7, none⟩ : Filter).width ≠ FilterWidth.Standard11) ∧
    ((FilterGroup.add ⟨.Standard11, .List, 1, [⟨.Standard11, 5, none⟩]⟩
        ⟨.Extended29, 7, none⟩).2 = .error .GroupFull) ∧
    ((FilterGroup.add ⟨.Standard11, .List, 1, [⟨.Standard11, 5, none⟩]⟩
        ⟨.Extended29, 7, none⟩).2 ≠ .error .ConfigMismatch) := by
  refine ⟨by decide, rfl, ?_⟩
  intro h
  simp [FilterGroup.add, FilterGroup.used] at h

/-- C6 amended: for every group that is not already full and every filter
whose width/mode shape does not match the group's configuration, `add` fails
with `ConfigMismatch` and makes no change to the group. -/
theorem add_config_mismatch (g : FilterGroup) (f : Filter)
    (hroom : g.used ≠ g.capacity)
    (hshape : ¬(f.width = g.width ∧ f.mode = g.mode)) :
    (g.add f).2 = .error .ConfigMismatch ∧ (g.add f).1 = g := by
  simp [FilterGroup.add, hroom, hshape]

/-- C6 amended witness: an empty 11-bit list group rejects a 29-bit filter
with `ConfigMismatch` and is unchanged. -/
theorem add_config_mismatch_witness :
    ((FilterGroup.add ⟨.Standard11, .List, 4, []⟩ ⟨.Extended29, 7, none⟩).2
      = .error .ConfigMismatch) ∧
    ((FilterGroup.add ⟨.Standard11, .List, 4, []⟩ ⟨.Extended29, 7, none⟩).1
      = ⟨.Standard11, .List, 4, []⟩) :=
  add_config_mismatch ⟨.Standard11, .List, 4, []⟩ ⟨.Extended29, 7, none⟩
    (by decide) (by decide)

/-- C7: a Mask-mode filter with base pattern `identifier` and mask `mask`
accepts an incoming identifier `id` iff `(id &&& mask) = (identifier &&& mask)`;
a List-mode filter accepts `id` iff `id` equals its identifier exactly. -/
theorem filter_match_semantics (f : Filter) (m id : Nat) :
    (f.mask = some m →
      (f.matches id = true ↔ id &&& m = f.identifier &&& m)) ∧
    (f.mask = none →
      (f.matches id = true ↔ id = f.identifier)) := by
  constructor <;> intro h <;> simp [Filter.matches, h]

/-- C7 witness: the mask filter `{id=0, mask=2046}` accepts identifier 1, and
the list filter `{id=5}` accepts exactly 5. -/
theorem filter_match_semantics_witness :
    ((Filter.matches ⟨.Standard11, 0, some 2046⟩ 1 = true
        ↔ 1 &&& 2046 = 0 &&& 2046) ∧
     (Filter.matches ⟨.Standard11, 5, none⟩ 5 = true ↔ 5 = 5)) :=
  ⟨(filter_match_semantics ⟨.Standard11, 0, some 2046⟩ 2046 1).1 rfl,
   (filter_match_semantics ⟨.Standard11, 5, none⟩ 0 5).2 rfl⟩

/-- C8: the top-level `accepts id` is true iff some group in the pool has some
populated slot whose filter accepts `id`; and a frame reaches the receive path
exactly when `accepts` holds, so identifiers accepted by no filter never reach
it. -/
theorem accepts_iff_some_filter (gs : List FilterGroup) (id : Nat) :
    (accepts gs id = true
      ↔ ∃ g ∈ gs, ∃ f ∈ g.slots, f.matches id = true) ∧
    reaches_receive gs id = accepts gs id := by
  constructor
  · simp [accepts, FilterGroup.matches, List.any_eq_true]
  · rfl

/-- C9: a Mask-mode filter whose mask is all-ones accepts exactly the same
identifiers (of the filter's width) as a List-mode filter with the same base
identifier; and repeated evaluations of `matches` with the same identifier on
an unchanged filter set return the same result. -/
theorem mask_all_ones_eq_list (w : FilterWidth) (base id : Nat)
    (hbase : base < 2 ^ w.bits) (hid : id < 2 ^ w.bits) :
    (Filter.matches ⟨w, base, some (2 ^ w.bits - 1)⟩ id
      = Filter.matches ⟨w, base, none⟩ id) ∧
    (∀ g : FilterGroup, g.matches id = g.matches id) := by
  refine ⟨?_, fun g => rfl⟩
  simp [Filter.matches, Nat.and_pow_two_sub_one_of_lt_two_pow hid,
        Nat.and_pow_two_sub_one_of_lt_two_pow hbase]

/-- C9 witness: with 11-bit identifiers, the all-ones-mask filter on base 3
matches identifier 5 exactly as the list filter on base 3 does. -/
theorem mask_all_ones_eq_list_witness :
    (Filter.matches ⟨.Standard11, 3, some (2 ^ FilterWidth.Standard11.bits - 1)⟩ 5
      = Filter.matches ⟨.Standard11, 3, none⟩ 5) ∧
    (∀ g : FilterGroup, g.matches 5 = g.matches 5) :=
  mask_all_ones_eq_list .Standard11 3 5 (by decide) (by decide)

/-- An `add` call, successful or failed, never removes a match: the group
returned by `add` still matches every identifier the old group matched. -/
theorem add_matches_mono (g : FilterGroup) (f : Filter) (id : Nat)
    (h : g.matches id = true) : ((g.add f).1).matches id = true := by
  unfold FilterGroup.add
  split
  · exact h
  · split
    · simp only [FilterGroup.matches, List.any_append, List.any_cons,
        List.any_nil, Bool.or_eq_true] at h ⊢
      exact Or.inl h
    · exact h

/-- C10: `accepts` is monotone in the filter set — if an identifier is
accepted, it is still accepted after any further `add` of a filter to any
group of the pool. -/
theorem accepts_monotone_add (gs : List FilterGroup) (id i : Nat)
    (f : Filter) (hi : i < gs.length) (hacc : accepts gs id = true) :
    accepts (gs.set i ((gs[i].add f).1)) id = true := by
  rw [accepts, List.any_eq_true] at hacc ⊢
  obtain ⟨g, hg, hm⟩ := hacc
  obtain ⟨j, hj, rfl⟩ := List.mem_iff_getElem.mp hg
  by_cases hij : j = i
  · subst hij
    have hlen : j < (gs.set j ((gs[j].add f).1)).length := by simpa using hj
    refine ⟨(gs.set j ((gs[j].add f).1))[j], List.getElem_mem hlen, ?_⟩
    rw [List.getElem_set_self hlen]
    exact add_matches_mono _ _ _ hm
  · have hlen : j < (gs.set i ((gs[i].add f).1)).length := by simpa using hj
    refine ⟨(gs.set i ((gs[i].add f).1))[j], List.getElem_mem hlen, ?_⟩
    rw [List.getElem_set_ne (Ne.symm hij) hlen]
    exact hm

/-- C10 witness: a single-group pool accepting identifier 8 still accepts it
after adding the list filter for 9 to that group. -/
theorem accepts_monotone_add_witness :
    accepts (([⟨.Standard11, .List, 4, [⟨.Standard11, 8, none⟩]⟩]
        : List FilterGroup).set 0
      ((([(⟨.Standard11, .List, 4, [⟨.Standard11, 8, none⟩]⟩ : FilterGroup)])[0].add
          (Filter.new_standard 9)).1)) 8 = true :=
  accepts_monotone_add [⟨.Standard11, .List, 4, [⟨.Standard11, 8, none⟩]⟩] 8 0
    (Filter.new_standard 9) (by decide) (by decide)

end CanFilters
